import Mathlib

/-!
Shallow embedding of the interrupt subsystem in src/src/interrupts.rs
(crate rust_GenOS).  Handlers are modelled as pure functions from their
machine inputs to the finite list of observable effects they perform,
together with an outcome saying whether they return to the interrupted
code or leave the processor halted.  The vector table is modelled as the
record of entries the builder produces.
-/

namespace GenOS

/-- PIC_1_OFFSET from src/src/interrupts.rs line 10: the remap base of the
primary interrupt controller. -/
def PIC_1_OFFSET : Nat := 32

/-- PIC_2_OFFSET from src/src/interrupts.rs line 11. -/
def PIC_2_OFFSET : Nat := PIC_1_OFFSET + 8

namespace gdt

/-- Modelled from the spec: gdt::DOUBLE_FAULT_IST_INDEX lives in the gdt
module, which is not under src/.  The spec (section 6) says the
stack-switch resource supplies a fixed index naming a known-good stack
reserved for the double-fault handler; we model it as an arbitrary fixed
natural number. -/
def DOUBLE_FAULT_IST_INDEX : Nat := 0

end gdt

/-- The InterruptIndex enum from src/src/interrupts.rs lines 16 to 24.
Rust assigns declaration-order discriminants 0, 1, 2 to the first three
variants; Timer and Keyboard carry the explicit discriminants
PIC_1_OFFSET and PIC_1_OFFSET + 1. -/
inductive InterruptIndex where
  | Breakpoint
  | DoubleFault
  | PageFault
  | Timer
  | Keyboard
deriving DecidableEq, Repr

/-- InterruptIndex::as_u8: the repr(u8) discriminant of each variant. -/
def InterruptIndex.as_u8 : InterruptIndex → Nat
  | .Breakpoint => 0
  | .DoubleFault => 1
  | .PageFault => 2
  | .Timer => PIC_1_OFFSET
  | .Keyboard => PIC_1_OFFSET + 1

/-- InterruptIndex::as_usize: usize::from(self.as_u8()). -/
def InterruptIndex.as_usize (i : InterruptIndex) : Nat := i.as_u8

/-- The interrupt stack frame pushed by the CPU and delivered to every
handler (x86_64 crate InterruptStackFrame). -/
structure InterruptStackFrame where
  instruction_pointer : Nat
  code_segment : Nat
  cpu_flags : Nat
  stack_pointer : Nat
  stack_segment : Nat
deriving DecidableEq, Repr

/-- Payload attached to a single error! log call. -/
inductive LogPayload where
  | noPayload
  | addrPayload (addr : Nat)
  | codePayload (code : Nat)
  | framePayload (frame : InterruptStackFrame)
deriving DecidableEq, Repr

/-- One observable effect performed by a handler. -/
inductive Effect where
  | logError (msg : String) (payload : LogPayload)
  | logDebug (msg : String)
  | printChar (c : Char)
  | printRawKey (k : Nat)
  | portRead (port : Nat)
  | endOfInterrupt (vector : Nat)
  | halt
deriving DecidableEq, Repr

/-- Whether a handler returns to the interrupted code or leaves the
processor halted. -/
inductive HandlerOutcome where
  | returned
  | halted
deriving DecidableEq, Repr

/-- Modelled from the spec: hlt_loop lives in the crate root (super), not
under src/.  The spec (section 6) calls it the halt primitive that parks
the processor in a halted state; it emits the halt effect and never
returns. -/
def hlt_loop : List Effect × HandlerOutcome := ([Effect.halt], .halted)

/-- Modelled from the spec: the panic handler lives outside src/.  The
spec (sections 4.2 and 7) says a double fault is logged and then the
processor is halted unconditionally, so panicking ends in the halt
primitive and never returns. -/
def panicHalt : List Effect × HandlerOutcome := ([Effect.halt], .halted)

/-- InterruptIndex::send_bye_signal (src/src/interrupts.rs lines 35 to
39): PICS.lock().notify_end_of_interrupt(i.as_u8()). -/
def InterruptIndex.send_bye_signal (i : InterruptIndex) : List Effect :=
  [Effect.endOfInterrupt i.as_u8]

/-- InterruptIndex::page_fault (src/src/interrupts.rs lines 41 to 52):
four error! calls, the second logging the value read from the CR2
fault-address register, then hlt_loop.  The cr2 argument is the value the
hardware register holds at entry. -/
def InterruptIndex.page_fault (stack_frame : InterruptStackFrame)
    (error_code : Nat) (cr2 : Nat) : List Effect × HandlerOutcome :=
  ([Effect.logError "PAGE FAULT" .noPayload,
    Effect.logError "Accessed Address: $0C" (.addrPayload cr2),
    Effect.logError "Error Code: $0C" (.codePayload error_code),
    Effect.logError " $0C" (.framePayload stack_frame)] ++ hlt_loop.1,
   hlt_loop.2)

/-- InterruptIndex::timer (src/src/interrupts.rs lines 54 to 57): the
print is commented out in the source; the body is only the
end-of-interrupt acknowledgment on the timer line. -/
def InterruptIndex.timer (_stack_frame : InterruptStackFrame) :
    List Effect × HandlerOutcome :=
  (InterruptIndex.send_bye_signal .Timer, .returned)

/-- InterruptIndex.breakpoint (src/src/interrupts.rs lines 86 to 88): one
error! call logging the delivered frame, then a normal return. -/
def InterruptIndex.breakpoint (stack_frame : InterruptStackFrame) :
    List Effect × HandlerOutcome :=
  ([Effect.logError "BREAKPOINT\n" (.framePayload stack_frame)], .returned)

/-- InterruptIndex::double_fault (src/src/interrupts.rs lines 90 to 96):
logs the frame with error!, then panics; the return type ! means it never
returns. -/
def InterruptIndex.double_fault (stack_frame : InterruptStackFrame)
    (_error_code : Nat) : List Effect × HandlerOutcome :=
  ([Effect.logError "DOUBLE-FAULT:\n" (.framePayload stack_frame)]
     ++ panicHalt.1,
   panicHalt.2)

/-- A completed key event produced by the pc_keyboard decoder; its
internals are irrelevant to this module, so it is an abstract code. -/
structure KeyEvent where
  code : Nat
deriving DecidableEq, Repr

/-- pc_keyboard DecodedKey: either a printable unicode character or a raw
key identity. -/
inductive DecodedKey where
  | Unicode (c : Char)
  | RawKey (k : Nat)
deriving DecidableEq, Repr

/-- Result of Keyboard::add_byte: Ok(Some(event)) when the byte completes
a key event, Ok(None) when the byte is a valid part of a longer sequence,
Err when the byte is malformed. -/
inductive AddByteResult where
  | ok (event : Option KeyEvent)
  | err
deriving DecidableEq, Repr

/-- The pc_keyboard decoder consulted by the keyboard handler, abstracted
by its two observable responses to the single injected byte: what
add_byte returns for it and how process_keyevent resolves a completed
event. -/
structure KeyboardDecoder where
  add_byte : Nat → AddByteResult
  process_keyevent : KeyEvent → Option DecodedKey

/-- The printing part of InterruptIndex::keyboard (src/src/interrupts.rs
lines 74 to 81): the two nested if-let chains around add_byte and
process_keyevent, emitting at most one print effect. -/
def keyboardDecoded (decoder : KeyboardDecoder) (scancode : Nat) :
    List Effect :=
  match decoder.add_byte scancode with
  | .ok (some key_event) =>
    match decoder.process_keyevent key_event with
    | some (.Unicode character) => [Effect.printChar character]
    | some (.RawKey key) => [Effect.printRawKey key]
    | none => []
  | .ok none => []
  | .err => []

/-- InterruptIndex::keyboard (src/src/interrupts.rs lines 59 to 84):
reads one byte from port 0x60, feeds it to the decoder, prints the
decoded key when the byte completes an event that resolves to a key, and
always ends with the end-of-interrupt acknowledgment on the keyboard
line. -/
def InterruptIndex.keyboard (decoder : KeyboardDecoder) (scancode : Nat) :
    List Effect × HandlerOutcome :=
  ([Effect.portRead 0x60] ++ keyboardDecoded decoder scancode
     ++ InterruptIndex.send_bye_signal .Keyboard,
   .returned)

/-- Which handler function is installed in a vector-table entry. -/
inductive HandlerId where
  | breakpointHandler
  | doubleFaultHandler
  | pageFaultHandler
  | timerHandler
  | keyboardHandler
deriving DecidableEq, Repr

/-- One entry of the vector table: the installed handler, if any, and the
optional dedicated-stack index of its options. -/
structure IdtEntry where
  handler : Option HandlerId
  stack_index : Option Nat
deriving DecidableEq, Repr

/-- Entry::missing: a fresh entry has no handler and no stack index. -/
def IdtEntry.missing : IdtEntry := ⟨none, none⟩

/-- Entry::set_handler_fn: installs the handler and resets the options to
their defaults (no dedicated stack). -/
def IdtEntry.set_handler_fn (_e : IdtEntry) (h : HandlerId) : IdtEntry :=
  ⟨some h, none⟩

/-- EntryOptions::set_stack_index: pins the dedicated-stack index, keeping
the installed handler. -/
def IdtEntry.set_stack_index (e : IdtEntry) (idx : Nat) : IdtEntry :=
  ⟨e.handler, some idx⟩

/-- The x86_64 crate InterruptDescriptorTable: named fields for the three
CPU exceptions this module installs, the remaining CPU-reserved entries,
and the interrupts array covering vectors 32 to 255 (indexed by vector
minus 32). -/
structure InterruptDescriptorTable where
  breakpoint : IdtEntry
  double_fault : IdtEntry
  page_fault : IdtEntry
  otherExceptions : Nat → IdtEntry
  interrupts : Nat → IdtEntry

/-- InterruptDescriptorTable::new: every entry is missing. -/
def InterruptDescriptorTable.new : InterruptDescriptorTable :=
  ⟨IdtEntry.missing, IdtEntry.missing, IdtEntry.missing,
   fun _ => IdtEntry.missing, fun _ => IdtEntry.missing⟩

/-- The architectural vector each part of the table serves: the
breakpoint field is vector 3, double_fault is vector 8, page_fault is
vector 14, the other named exception fields cover the rest of 0 to 31,
and interrupts[i] is vector 32 + i. -/
def InterruptDescriptorTable.entryAt (idt : InterruptDescriptorTable)
    (v : Nat) : IdtEntry :=
  if v = 3 then idt.breakpoint
  else if v = 8 then idt.double_fault
  else if v = 14 then idt.page_fault
  else if v < 32 then idt.otherExceptions v
  else idt.interrupts (v - 32)

/-- IndexMut on the table combined with set_handler_fn, as used for the
device vectors: idt[n].set_handler_fn(h) with n at least 32. -/
def InterruptDescriptorTable.setAt (idt : InterruptDescriptorTable)
    (n : Nat) (h : HandlerId) : InterruptDescriptorTable :=
  { idt with interrupts :=
      fun i => if 32 + i = n then (idt.interrupts i).set_handler_fn h
               else idt.interrupts i }

/-- The IDT static (src/src/interrupts.rs lines 99 to 120): a fresh table
with the breakpoint, double-fault (with dedicated stack index) and
page-fault handlers on their named fields, and the timer and keyboard
handlers at the vectors given by their discriminants. -/
def IDT : InterruptDescriptorTable :=
  let idt := InterruptDescriptorTable.new
  let idt := { idt with
    breakpoint := idt.breakpoint.set_handler_fn .breakpointHandler }
  let idt := { idt with
    double_fault :=
      (idt.double_fault.set_handler_fn .doubleFaultHandler).set_stack_index
        gdt.DOUBLE_FAULT_IST_INDEX }
  let idt := { idt with
    page_fault := idt.page_fault.set_handler_fn .pageFaultHandler }
  let idt := idt.setAt InterruptIndex.Timer.as_usize .timerHandler
  let idt := idt.setAt InterruptIndex.Keyboard.as_usize .keyboardHandler
  idt

/-- init_idt (src/src/interrupts.rs lines 122 to 125): logs a debug line
and loads the table; the loaded table is IDT itself. -/
def init_idt : List Effect × InterruptDescriptorTable :=
  ([Effect.logDebug "Initialisation of the IDT"], IDT)

/-- Recognizer for end-of-interrupt effects. -/
def Effect.isEoi : Effect → Bool
  | .endOfInterrupt _ => true
  | _ => false

/-- Recognizer for output-surface effects (print! of a character or of a
raw key). -/
def Effect.isOutput : Effect → Bool
  | .printChar _ => true
  | .printRawKey _ => true
  | _ => false

/-- A concrete decoder on which every injected byte completes a key event
resolving to the printable character a; used to instantiate the keyboard
theorems. -/
def unicodeDecoder : KeyboardDecoder :=
  ⟨fun b => .ok (some ⟨b⟩), fun _ => some (.Unicode 'a')⟩

/-- A concrete decoder that rejects every byte as malformed. -/
def malformedDecoder : KeyboardDecoder :=
  ⟨fun _ => .err, fun _ => none⟩

/- Helper lemmas shared by the claim theorems. -/

/-- The printing part of the keyboard handler never signals
end-of-interrupt. -/
theorem keyboardDecoded_filter_eoi (d : KeyboardDecoder) (b : Nat) :
    (keyboardDecoded d b).filter Effect.isEoi = [] := by
  cases hd : d.add_byte b with
  | err => simp [keyboardDecoded, hd, Effect.isEoi]
  | ok ev =>
    cases ev with
    | none => simp [keyboardDecoded, hd, Effect.isEoi]
    | some e =>
      cases hp : d.process_keyevent e with
      | none => simp [keyboardDecoded, hd, hp, Effect.isEoi]
      | some k => cases k <;> simp [keyboardDecoded, hd, hp, Effect.isEoi]

/-- Every effect of the printing part of the keyboard handler is an
output effect. -/
theorem keyboardDecoded_filter_output (d : KeyboardDecoder) (b : Nat) :
    (keyboardDecoded d b).filter Effect.isOutput = keyboardDecoded d b := by
  cases hd : d.add_byte b with
  | err => simp [keyboardDecoded, hd, Effect.isOutput]
  | ok ev =>
    cases ev with
    | none => simp [keyboardDecoded, hd, Effect.isOutput]
    | some e =>
      cases hp : d.process_keyevent e with
      | none => simp [keyboardDecoded, hd, hp, Effect.isOutput]
      | some k =>
        cases k <;> simp [keyboardDecoded, hd, hp, Effect.isOutput]

/-- The output effects of a full keyboard-handler run are exactly its
printing part. -/
theorem keyboard_filter_output (d : KeyboardDecoder) (b : Nat) :
    (InterruptIndex.keyboard d b).1.filter Effect.isOutput
      = keyboardDecoded d b := by
  simp [InterruptIndex.keyboard, List.filter_append,
    keyboardDecoded_filter_output, InterruptIndex.send_bye_signal,
    Effect.isOutput]

/-- The end-of-interrupt effects of a full keyboard-handler run are
exactly one acknowledgment on the keyboard vector. -/
theorem keyboard_filter_eoi (d : KeyboardDecoder) (b : Nat) :
    (InterruptIndex.keyboard d b).1.filter Effect.isEoi
      = [Effect.endOfInterrupt InterruptIndex.Keyboard.as_u8] := by
  simp [InterruptIndex.keyboard, List.filter_append,
    keyboardDecoded_filter_eoi, InterruptIndex.send_bye_signal,
    Effect.isEoi]

set_option maxRecDepth 8192 in
/-- Claim C1: in the built vector table, the double-fault entry at vector
8 carries the dedicated stack index supplied by the stack-switch
resource, and every other one of the 256 vectors carries no dedicated
stack index. -/
theorem c1_only_double_fault_has_stack_index :
    ∀ v : Fin 256, (IDT.entryAt v.val).stack_index
      = if v.val = 8 then some gdt.DOUBLE_FAULT_IST_INDEX else none := by
  decide

/-- Claim C2: for every decoder state and every byte read, the keyboard
handler signals end-of-interrupt exactly once, on the keyboard vector,
and then returns; the acknowledgment is in the trace regardless of the
handling outcome of the byte. -/
theorem c2_keyboard_eoi_exactly_once (d : KeyboardDecoder) (b : Nat) :
    (InterruptIndex.keyboard d b).1.filter Effect.isEoi
        = [Effect.endOfInterrupt InterruptIndex.Keyboard.as_u8]
      ∧ (InterruptIndex.keyboard d b).2 = HandlerOutcome.returned :=
  ⟨keyboard_filter_eoi d b, rfl⟩

/-- Claim C3: for every frame and error code, the double-fault handler
logs the delivered stack frame and then halts; it never returns. -/
theorem c3_double_fault_logs_and_halts (f : InterruptStackFrame)
    (ec : Nat) :
    (InterruptIndex.double_fault f ec).1
        = [Effect.logError "DOUBLE-FAULT:\n" (LogPayload.framePayload f),
           Effect.halt]
      ∧ (InterruptIndex.double_fault f ec).2 = HandlerOutcome.halted :=
  ⟨rfl, rfl⟩

/-- Claim C4: for every frame, error code and fault address, the
page-fault handler logs the exact address read from the CR2 register,
the error code and the frame, then halts and never returns. -/
theorem c4_page_fault_logs_cr2_and_halts (f : InterruptStackFrame)
    (ec cr2 : Nat) :
    (InterruptIndex.page_fault f ec cr2).1
        = [Effect.logError "PAGE FAULT" LogPayload.noPayload,
           Effect.logError "Accessed Address: $0C" (LogPayload.addrPayload cr2),
           Effect.logError "Error Code: $0C" (LogPayload.codePayload ec),
           Effect.logError " $0C" (LogPayload.framePayload f),
           Effect.halt]
      ∧ (InterruptIndex.page_fault f ec cr2).2 = HandlerOutcome.halted :=
  ⟨rfl, rfl⟩

/-- Claim C5: the built table has the breakpoint handler at vector 3, the
page-fault handler at vector 14, the double-fault handler at vector 8,
the timer handler at the primary remap offset 32 and the keyboard handler
at the consecutive vector 33, and neither device vector lies in the
CPU-reserved range 0 to 31. -/
theorem c5_vector_assignments :
    (IDT.entryAt 3).handler = some HandlerId.breakpointHandler
      ∧ (IDT.entryAt 14).handler = some HandlerId.pageFaultHandler
      ∧ (IDT.entryAt 8).handler = some HandlerId.doubleFaultHandler
      ∧ PIC_1_OFFSET = 32
      ∧ InterruptIndex.Timer.as_usize = PIC_1_OFFSET
      ∧ InterruptIndex.Keyboard.as_usize = PIC_1_OFFSET + 1
      ∧ (IDT.entryAt 32).handler = some HandlerId.timerHandler
      ∧ (IDT.entryAt 33).handler = some HandlerId.keyboardHandler
      ∧ 32 ≤ InterruptIndex.Timer.as_usize
      ∧ 32 ≤ InterruptIndex.Keyboard.as_usize := by
  decide

/-- Claim C6: the keyboard handler emits output exactly when the injected
byte completes a key event that the decoder resolves to a key; a byte
resolving to a printable character yields exactly one printed character,
while a malformed byte or a byte completing no event yields none. -/
theorem c6_keyboard_output_iff (d : KeyboardDecoder) (b : Nat) :
    ((InterruptIndex.keyboard d b).1.filter Effect.isOutput ≠ []
        ↔ ∃ e k, d.add_byte b = AddByteResult.ok (some e)
            ∧ d.process_keyevent e = some k)
      ∧ (∀ e c, d.add_byte b = AddByteResult.ok (some e) →
          d.process_keyevent e = some (DecodedKey.Unicode c) →
          (InterruptIndex.keyboard d b).1.filter Effect.isOutput
            = [Effect.printChar c])
      ∧ (d.add_byte b = AddByteResult.err →
          (InterruptIndex.keyboard d b).1.filter Effect.isOutput = [])
      ∧ (d.add_byte b = AddByteResult.ok none →
          (InterruptIndex.keyboard d b).1.filter Effect.isOutput = []) := by
  simp only [keyboard_filter_output]
  cases hd : d.add_byte b with
  | err => simp [keyboardDecoded, hd]
  | ok ev =>
    cases ev with
    | none => simp [keyboardDecoded, hd]
    | some e =>
      cases hp : d.process_keyevent e with
      | none =>
        simp [keyboardDecoded, hd, hp]
        rintro e1 c2 rfl h
        simpa using hp.symm.trans h
      | some k =>
        cases k with
        | Unicode c =>
          simp [keyboardDecoded, hd, hp]
          rintro e1 c2 rfl h
          simpa using hp.symm.trans h
        | RawKey k =>
          simp [keyboardDecoded, hd, hp]
          rintro e1 c2 rfl h
          simpa using hp.symm.trans h

/-- Witness for C6 at two concrete decoders: one on which byte 30
resolves to the character a, one on which every byte is malformed. -/
theorem c6_keyboard_output_iff_witness :
    (InterruptIndex.keyboard unicodeDecoder 30).1.filter Effect.isOutput
        = [Effect.printChar 'a']
      ∧ (InterruptIndex.keyboard malformedDecoder 30).1.filter
          Effect.isOutput = [] :=
  ⟨(c6_keyboard_output_iff unicodeDecoder 30).2.1 ⟨30⟩ 'a' rfl rfl,
   (c6_keyboard_output_iff malformedDecoder 30).2.2.1 rfl⟩

/-- Claim C7: for every frame, the breakpoint handler logs the delivered
frame and returns normally; its trace contains no halt. -/
theorem c7_breakpoint_logs_and_returns (f : InterruptStackFrame) :
    (InterruptIndex.breakpoint f).1
        = [Effect.logError "BREAKPOINT\n" (LogPayload.framePayload f)]
      ∧ (InterruptIndex.breakpoint f).2 = HandlerOutcome.returned
      ∧ Effect.halt ∉ (InterruptIndex.breakpoint f).1 := by
  refine ⟨rfl, rfl, ?_⟩
  simp [InterruptIndex.breakpoint]

set_option maxRecDepth 8192 in
/-- Claim C8: a vector of the built table differs from the same vector of
a freshly created table exactly when it is one of 3, 8, 14, 32, 33; every
fresh entry is missing, so each unassigned vector still holds the missing
entry that produces the default unhandled-interrupt fault. -/
theorem c8_unassigned_vectors_untouched :
    ∀ v : Fin 256,
      ((IDT.entryAt v.val ≠ InterruptDescriptorTable.new.entryAt v.val)
          ↔ (v.val = 3 ∨ v.val = 8 ∨ v.val = 14 ∨ v.val = 32 ∨ v.val = 33))
        ∧ InterruptDescriptorTable.new.entryAt v.val = IdtEntry.missing := by
  decide

/-- Claim C9: for every frame, the timer handler performs exactly one
effect, the end-of-interrupt acknowledgment on the timer vector 32, and
then returns. -/
theorem c9_timer_only_eoi (f : InterruptStackFrame) :
    InterruptIndex.timer f
        = ([Effect.endOfInterrupt InterruptIndex.Timer.as_u8],
           HandlerOutcome.returned)
      ∧ InterruptIndex.Timer.as_u8 = 32 :=
  ⟨rfl, rfl⟩

/-- Claim C10: as_u8 returns the declaration-order discriminants 0, 1, 2
for Breakpoint, DoubleFault and PageFault, at which vectors the built
table installs nothing, while the handlers sit at the named-field vectors
3, 8 and 14; for Timer and Keyboard it returns 32 and 33, which equal the
installed vectors, and every end-of-interrupt any handler signals carries
one of these two values. -/
theorem c10_discriminants_vs_vectors (d : KeyboardDecoder) (b : Nat)
    (f : InterruptStackFrame) (ec cr2 : Nat) :
    InterruptIndex.Breakpoint.as_u8 = 0
      ∧ InterruptIndex.DoubleFault.as_u8 = 1
      ∧ InterruptIndex.PageFault.as_u8 = 2
      ∧ InterruptIndex.Timer.as_u8 = 32
      ∧ InterruptIndex.Keyboard.as_u8 = 33
      ∧ (IDT.entryAt InterruptIndex.Breakpoint.as_u8).handler = none
      ∧ (IDT.entryAt InterruptIndex.DoubleFault.as_u8).handler = none
      ∧ (IDT.entryAt InterruptIndex.PageFault.as_u8).handler = none
      ∧ (IDT.entryAt 3).handler = some HandlerId.breakpointHandler
      ∧ (IDT.entryAt 8).handler = some HandlerId.doubleFaultHandler
      ∧ (IDT.entryAt 14).handler = some HandlerId.pageFaultHandler
      ∧ (IDT.entryAt InterruptIndex.Timer.as_u8).handler
          = some HandlerId.timerHandler
      ∧ (IDT.entryAt InterruptIndex.Keyboard.as_u8).handler
          = some HandlerId.keyboardHandler
      ∧ (InterruptIndex.timer f).1.filter Effect.isEoi
          = [Effect.endOfInterrupt InterruptIndex.Timer.as_u8]
      ∧ (InterruptIndex.keyboard d b).1.filter Effect.isEoi
          = [Effect.endOfInterrupt InterruptIndex.Keyboard.as_u8]
      ∧ (InterruptIndex.breakpoint f).1.filter Effect.isEoi = []
      ∧ (InterruptIndex.page_fault f ec cr2).1.filter Effect.isEoi = []
      ∧ (InterruptIndex.double_fault f ec).1.filter Effect.isEoi = [] := by
  refine ⟨rfl, rfl, rfl, rfl, rfl, by decide, by decide, by decide,
    by decide, by decide, by decide, by decide, by decide, rfl,
    keyboard_filter_eoi d b, rfl, rfl, rfl⟩

end GenOS
